import Mathlib

/-!
Verification of the classification-and-placement engine of
`organizador_gui.py` (class `OrganizadorAutomatico`).

The embedding is shallow and executable:

* a filesystem path is a list of segments from the root (`Ruta`);
* the filesystem is the list of paths that currently exist (`List Ruta`),
  with no distinction between files and directories beyond the way the
  engine itself uses them;
* Python `str` operations used by the engine (`lower`, `startswith`,
  slicing `s[i:j]`, `split`, `capitalize`, `in`) are modelled on
  `String` / `List Char`;
* `pathlib.Path` accessors `name`, `suffix`, `stem`, `parent`, `parents`
  are modelled on `Ruta` following the CPython definitions;
* the mutable per-run state of `OrganizadorAutomatico`
  (`self.estadisticas`, `self.archivos_conflictivos`, plus the filesystem
  the methods mutate) is threaded explicitly as a record `Estado`;
* the fallible move/copy step (`shutil.move` / `shutil.copy2`, lines
  273-278) is driven by an oracle `Option PyErr` describing whether the
  underlying filesystem primitive succeeds, raises `PermissionError`, or
  raises any other exception; the `try/except` wrapper of
  `procesar_archivo` (lines 214, 287-294) is the `match` on that oracle.
-/

/-- A filesystem path: the list of its segments from the root.
Models `pathlib.Path`; `p.dropLast` is `p.parent`, `p ++ [s]` is `p / s`. -/
abbrev Ruta := List String

/-- Python slicing `s[:n]` on a string. -/
def pyTake (s : String) (n : Nat) : String := String.mk (s.toList.take n)

/-- Python slicing `s[n:]` on a string. -/
def pyDrop (s : String) (n : Nat) : String := String.mk (s.toList.drop n)

/-- Helper for `pySplit`: accumulates the current chunk (reversed). -/
def pySplitAux (sep : Char) : List Char → List Char → List (List Char)
  | [], acc => [acc.reverse]
  | c :: cs, acc =>
    if c = sep then acc.reverse :: pySplitAux sep cs []
    else pySplitAux sep cs (c :: acc)

/-- Python `s.split(sep)` for a one-character separator. -/
def pySplit (sep : Char) (s : String) : List String :=
  (pySplitAux sep s.toList []).map String.mk

/-- Python `sub in s` on strings (substring containment). -/
def pyContiene (sub s : String) : Bool := decide (sub.toList <:+: s.toList)

/-- Python `s.lower()`: each character lower-cased (the character-wise
map `String.toLower` computes, stated over the character list). -/
def pyLower (s : String) : String := String.mk (s.toList.map Char.toLower)

/-- Python `s.startswith(pre)`. -/
def pyStartsWith (s pre : String) : Bool := decide (pre.toList <+: s.toList)

/-- Python `s.capitalize()`: first character upper-cased, rest lower-cased. -/
def pyCapitalize (s : String) : String :=
  match s.toList with
  | [] => ""
  | c :: cs => String.mk (c.toUpper :: cs.map Char.toLower)

/-- Python `x or d` for an optional string `x`: the default is used when
`x` is `None` or the empty string (both falsy). -/
def pyOr (x : Option String) (d : String) : String :=
  match x with
  | none => d
  | some s => if s = "" then d else s

/-- Index of the last occurrence of `c` in `cs` (Python `str.rfind`),
`none` when absent. -/
def rfindIdx (c : Char) (cs : List Char) : Option Nat :=
  match cs.reverse.findIdx? (fun x => x = c) with
  | some j => some (cs.length - 1 - j)
  | none => none

/-- The final segment of a path: `pathlib.Path.name` (empty for the root). -/
def nombreDe (p : Ruta) : String := p.getLastD ""

/-- CPython `pathlib.PurePath.suffix`: the trailing `.ext` of the name,
empty when the last dot is leading, trailing or absent. -/
def sufijoNombre (nombre : String) : String :=
  let cs := nombre.toList
  match rfindIdx '.' cs with
  | some i => if 0 < i ∧ i < cs.length - 1 then String.mk (cs.drop i) else ""
  | none => ""

/-- CPython `pathlib.PurePath.stem`: the name with `sufijoNombre` removed. -/
def nombreBase (nombre : String) : String :=
  let cs := nombre.toList
  match rfindIdx '.' cs with
  | some i => if 0 < i ∧ i < cs.length - 1 then String.mk (cs.take i) else nombre
  | none => nombre

/-- `pathlib.Path.suffix` of a whole path. -/
def sufijoDe (p : Ruta) : String := sufijoNombre (nombreDe p)

/-- The operational flags of `config["configuracion"]` together with the
category table `config["extensiones"]` (an insertion-ordered dict, hence a
list of pairs), lines 54-85 of the source.  `tamano_maximo_mb` is the
source key `tamaño_maximo_mb`. -/
structure Configuracion where
  extensiones : List (String × List String)
  organizar_por_tipo : Bool
  organizar_por_fecha : Bool
  formato_fecha : String
  organizar_por_proyecto : Bool
  mover_archivos : Bool
  ignorar_ocultos : Bool
  ignorar_sistemas : Bool
  tamano_maximo_mb : Nat
  modo_seguro : Bool
  mantener_estructura_original : Bool
deriving DecidableEq

/-- The per-run counters `self.estadisticas`, lines 143-150. -/
structure Estadisticas where
  archivos_procesados : Nat
  archivos_movidos : Nat
  archivos_omitidos : Nat
  carpetas_creadas : Nat
  errores : Nat
  espacio_liberado : Nat
deriving DecidableEq

/-- Fresh counters, as assigned at lines 143-150 and 351-358. -/
def estadisticasIniciales : Estadisticas :=
  { archivos_procesados := 0, archivos_movidos := 0, archivos_omitidos := 0
    carpetas_creadas := 0, errores := 0, espacio_liberado := 0 }

/-- The mutable state an `OrganizadorAutomatico` method touches: its two
mutable fields plus the filesystem (the list of currently existing paths). -/
structure Estado where
  estadisticas : Estadisticas
  archivos_conflictivos : List Ruta
  fs : List Ruta
deriving DecidableEq

/-- A calendar date (`datetime` restricted to the fields `strftime`
uses here: `%Y`, `%m`, `%d`). -/
structure Fecha where
  anio : Nat
  mes : Nat
  dia : Nat
deriving DecidableEq

/-- What `procesar_archivo` reads from one file: its path and the
`stat` data it uses (modification date and size in bytes), lines 220-223. -/
structure Archivo where
  path : Ruta
  mtime : Fecha
  tamano : Nat
deriving DecidableEq

/-- Outcome of the fallible move/copy primitive: `permission` is a raised
`PermissionError`, `otherExc` any other raised exception. -/
inductive PyErr
  | permission
  | otherExc
deriving DecidableEq

/-- The default category table `config_default["extensiones"]`,
lines 55-69 of the source. -/
def extensiones_default : List (String × List String) :=
  [("Imágenes", [".jpg", ".jpeg", ".png", ".gif", ".bmp", ".svg", ".webp", ".tiff", ".ico"]),
   ("Documentos", [".pdf", ".doc", ".docx", ".txt", ".rtf", ".odt", ".md", ".epub", ".mobi"]),
   ("Hojas de cálculo", [".xls", ".xlsx", ".csv", ".ods", ".xlsm", ".xlsb"]),
   ("Presentaciones", [".ppt", ".pptx", ".odp", ".key"]),
   ("Videos", [".mp4", ".avi", ".mov", ".mkv", ".wmv", ".flv", ".m4v", ".webm"]),
   ("Audio", [".mp3", ".wav", ".flac", ".aac", ".ogg", ".m4a", ".wma", ".midi"]),
   ("Comprimidos", [".zip", ".rar", ".7z", ".tar", ".gz", ".bz2", ".xz"]),
   ("Ejecutables", [".exe", ".msi", ".dmg", ".app", ".sh", ".bat", ".cmd", ".apk"]),
   ("Código", [".py", ".js", ".html", ".css", ".java", ".cpp", ".c", ".php", ".json", ".xml", ".yml", ".yaml"]),
   ("Diseño", [".psd", ".ai", ".xd", ".sketch", ".fig", ".eps", ".indd"]),
   ("Sistema", [".dll", ".sys", ".ini", ".cfg", ".log", ".bak"]),
   ("Fuentes", [".ttf", ".otf", ".woff", ".woff2", ".eot"]),
   ("Base de datos", [".db", ".sqlite", ".mdb", ".accdb", ".sql"]),
   ("Virtualización", [".iso", ".vhd", ".vmdk", ".ova", ".ovf"]),
   ("Otros", [])]

/-- The `for categoria, extensiones in ...` loop of `obtener_categoria`,
lines 158-162: first category whose list contains the extension, else
the fallback `"Otros"`. -/
def obtener_categoria_lista (extension : String) : List (String × List String) → String
  | [] => "Otros"
  | (categoria, extensiones) :: resto =>
    if extension ∈ extensiones then categoria
    else obtener_categoria_lista extension resto

/-- `OrganizadorAutomatico.obtener_categoria`, lines 154-162: lower-cases
the extension and scans the configured table in order. -/
def obtener_categoria (config : Configuracion) (extension : String) : String :=
  obtener_categoria_lista (pyLower extension) config.extensiones

/-- The candidate name `f"{nombre_base} ({contador}){extension}"` of
line 175. -/
def nombreNumerado (nombre_base extension : String) (contador : Nat) : String :=
  nombre_base ++ " (" ++ Nat.repr contador ++ ")" ++ extension

/-- The `while True` search of lines 174-178.  The loop terminates as
soon as a candidate does not exist; `buscarLibre_spec` below shows the
fuel `fs.length + 1` used by `generar_nombre_unico` always suffices, so
the fuel-exhausted first branch is unreachable there. -/
def buscarLibre (fs : List Ruta) (directorio : Ruta) (nombre_base extension : String) :
    Nat → Nat → Ruta
  | contador, 0 => directorio ++ [nombreNumerado nombre_base extension contador]
  | contador, fuel + 1 =>
    let nuevo := directorio ++ [nombreNumerado nombre_base extension contador]
    if nuevo ∈ fs then buscarLibre fs directorio nombre_base extension (contador + 1) fuel
    else nuevo

/-- `OrganizadorAutomatico.generar_nombre_unico`, lines 164-178: returns
the path unchanged when it does not exist, otherwise the first free
`stem (N).ext` in the same directory, counting from `N = 1`. -/
def generar_nombre_unico (fs : List Ruta) (ruta_destino : Ruta) : Ruta :=
  if ruta_destino ∈ fs then
    buscarLibre fs ruta_destino.dropLast
      (nombreBase (nombreDe ruta_destino)) (sufijoNombre (nombreDe ruta_destino))
      1 (fs.length + 1)
  else ruta_destino

/-- Python `datetime.strftime("%Y")`: decimal year, no padding below
four digits on the reference platform. -/
def strftimeY (n : Nat) : String := Nat.repr n

/-- Python `datetime.strftime("%m")` / `("%d")`: two digits, zero-padded. -/
def pad2 (n : Nat) : String := if n < 10 then "0" ++ Nat.repr n else Nat.repr n

/-- The date string computed at lines 239-245 of `procesar_archivo`:
`"%Y/%m"` for the `"YYYY/MM"` variant, `"%Y-%m-%d"` for `"AAAA/MM/DD"`,
and `"%Y-%m"` otherwise. -/
def fmtFecha (formato : String) (f : Fecha) : String :=
  if formato = "YYYY/MM" then strftimeY f.anio ++ "/" ++ pad2 f.mes
  else if formato = "AAAA/MM/DD" then
    strftimeY f.anio ++ "-" ++ pad2 f.mes ++ "-" ++ pad2 f.dia
  else strftimeY f.anio ++ "-" ++ pad2 f.mes

/-- The `categorias` list built at lines 234-251 of `procesar_archivo`:
the category, then the date string when organize-by-date is on, then
`proyecto or "Sin Proyecto"` when organize-by-project is on.  The
project argument is the (pure) result of `detectar_proyecto`. -/
def buildCategorias (config : Configuracion) (categoria : String)
    (proyecto : Option String) (f : Fecha) : List String :=
  let cats := [categoria]
  let cats := if config.organizar_por_fecha then cats ++ [fmtFecha config.formato_fecha f] else cats
  if config.organizar_por_proyecto then cats ++ [pyOr proyecto "Sin Proyecto"] else cats

/-- The pure path computation of `crear_estructura_carpetas`,
lines 182-204: category segment, date segment(s) decomposed by format,
then project segment, each behind its guard. -/
def rutaCarpeta (config : Configuracion) (ruta_base : Ruta) (categorias : List String) : Ruta :=
  let r1 := if config.organizar_por_tipo then ruta_base ++ [categorias.getD 0 ""] else ruta_base
  let r2 :=
    if config.organizar_por_fecha ∧ categorias.length > 1 then
      let fecha_str := categorias.getD 1 ""
      if config.formato_fecha = "YYYY/MM" then
        r1 ++ [pyTake fecha_str 4, pyTake (pyDrop fecha_str 5) 2]
      else if config.formato_fecha = "AAAA/MM/DD" then
        let partes := pySplit '-' fecha_str
        r1 ++ [partes.getD 0 "", partes.getD 1 "", partes.getD 2 ""]
      else r1 ++ [fecha_str]
    else r1
  if config.organizar_por_proyecto ∧ categorias.length > 2 ∧ categorias.getD 2 "" ≠ "" then
    r2 ++ [categorias.getD 2 ""]
  else r2

/-- `ruta_actual.mkdir(parents=True, exist_ok=True)`, line 207: every
missing prefix of the directory comes into existence; nothing is removed. -/
def mkdir_parents (fs : List Ruta) (p : Ruta) : List Ruta :=
  fs ++ p.inits.filter (fun q => decide (q ∉ fs))

/-- `OrganizadorAutomatico.crear_estructura_carpetas`, lines 180-210:
computes the nested folder, creates it (with parents), increments the
`carpetas_creadas` counter unconditionally, and returns the folder. -/
def crear_estructura_carpetas (config : Configuracion) (st : Estado)
    (ruta_base : Ruta) (categorias : List String) : Estado × Ruta :=
  let ruta_actual := rutaCarpeta config ruta_base categorias
  ({ st with
      fs := mkdir_parents st.fs ruta_actual
      estadisticas := { st.estadisticas with
        carpetas_creadas := st.estadisticas.carpetas_creadas + 1 } },
   ruta_actual)

/-- The system-file name list of lines 306-307. -/
def archivos_sistema : List String :=
  ["desktop.ini", ".DS_Store", "Thumbs.db", ".localized", ".Spotlight-V100", ".fseventsd"]

/-- The temporary-extension list of line 312. -/
def extensiones_temp : List String := [".tmp", ".temp", ".crdownload", ".part", ".download"]

/-- `OrganizadorAutomatico.debe_ignorar`, lines 296-316: hidden names
(behind `ignorar_ocultos`), system names (behind `ignorar_sistemas`),
and temporary extensions (unconditionally). -/
def debe_ignorar (config : Configuracion) (archivo_path : Ruta) : Bool :=
  let nombre := nombreDe archivo_path
  if config.ignorar_ocultos && pyStartsWith nombre "." then true
  else if config.ignorar_sistemas && decide (nombre ∈ archivos_sistema) then true
  else if decide (pyLower (sufijoDe archivo_path) ∈ extensiones_temp) then true
  else false

/-- The project-marker filenames of lines 321-327. -/
def indicadores : List String :=
  ["package.json", "requirements.txt", "pom.xml", "build.gradle",
   "Cargo.toml", "composer.json", ".git", ".gitignore", ".svn",
   "README.md", "Makefile", "CMakeLists.txt", "Dockerfile",
   "docker-compose.yml", "pyproject.toml", "setup.py",
   "index.html", "manifest.json", "pubspec.yaml"]

/-- The filename keywords of line 336. -/
def palabras_clave : List String :=
  ["proyecto", "project", "trabajo", "work", "cliente", "client"]

/-- `list(archivo_path.parents)`: every proper prefix of the path, from
the immediate parent down to the root. -/
def parentsDe (p : Ruta) : List Ruta :=
  (List.range p.length).map (fun k => p.take (p.length - 1 - k))

/-- `OrganizadorAutomatico.detectar_proyecto`, lines 318-343: scan
`[parent] + parents` for a directory containing a marker file and return
its name, else scan the lower-cased stem for a keyword and return it
capitalized, else `None`. -/
def detectar_proyecto (fs : List Ruta) (archivo_path : Ruta) : Option String :=
  let dirs := archivo_path.dropLast :: parentsDe archivo_path
  match dirs.findSome? (fun d =>
      indicadores.findSome? (fun ind =>
        if (d ++ [ind]) ∈ fs then some (nombreDe d) else none)) with
  | some nombre => some nombre
  | none =>
    let nombre_archivo := pyLower (nombreBase (nombreDe archivo_path))
    match palabras_clave.find? (fun palabra => pyContiene palabra nombre_archivo) with
    | some palabra => some (pyCapitalize palabra)
    | none => none

/-- The size test of lines 226-227: `tamaño / (1024*1024) > tamaño_maximo_mb`,
stated over the integers (`size > limit * 2^20`, the same comparison
without the float detour). -/
def excede_tamano (config : Configuracion) (tamano : Nat) : Bool :=
  decide (config.tamano_maximo_mb * 1048576 < tamano)

/-- The category `procesar_archivo` resolves at line 232. -/
def categoria_de (config : Configuracion) (a : Archivo) : String :=
  obtener_categoria config (sufijoDe a.path)

/-- The `categorias` list `procesar_archivo` builds at lines 234-251,
with the project taken from `detectar_proyecto` on the current filesystem. -/
def categorias_de (config : Configuracion) (fs : List Ruta) (a : Archivo) : List String :=
  buildCategorias config (categoria_de config a) (detectar_proyecto fs a.path) a.mtime

/-- The destination root resolved at lines 253-258: the explicit argument
when given, else the file's parent (under `Organizados` when
`mantener_estructura_original` is set). -/
def destino_base (config : Configuracion) (a : Archivo) : Option Ruta → Ruta
  | some c => c
  | none =>
    if config.mantener_estructura_original then a.path.dropLast ++ ["Organizados"]
    else a.path.dropLast

/-- The folder `crear_estructura_carpetas` returns for a given file
(line 261). -/
def carpeta_final_de (config : Configuracion) (st : Estado) (a : Archivo)
    (carpeta_destino : Option Ruta) : Ruta :=
  rutaCarpeta config (destino_base config a carpeta_destino) (categorias_de config st.fs a)

/-- The candidate destination file path of line 262. -/
def ruta_destino_de (config : Configuracion) (st : Estado) (a : Archivo)
    (carpeta_destino : Option Ruta) : Ruta :=
  carpeta_final_de config st a carpeta_destino ++ [nombreDe a.path]

/-- `OrganizadorAutomatico.procesar_archivo`, lines 212-294.  The `io`
oracle is the behaviour of the move/copy primitive; its `some` cases are
the two `except` clauses (lines 287-294), which catch the exception and
leave every state mutation already performed (the `mkdir` and the
`carpetas_creadas` increment) in place. -/
def procesar_archivo (config : Configuracion) (st : Estado) (a : Archivo)
    (carpeta_destino : Option Ruta) (io : Option PyErr) : Estado × Bool × String :=
  if debe_ignorar config a.path then
    ({ st with estadisticas := { st.estadisticas with
        archivos_omitidos := st.estadisticas.archivos_omitidos + 1 } },
     false, "ignorado")
  else if excede_tamano config a.tamano then
    ({ st with estadisticas := { st.estadisticas with
        archivos_omitidos := st.estadisticas.archivos_omitidos + 1 } },
     false, "tamaño_excedido")
  else
    let paso := crear_estructura_carpetas config st
      (destino_base config a carpeta_destino) (categorias_de config st.fs a)
    let st1 := paso.1
    let ruta_destino := paso.2 ++ [nombreDe a.path]
    if ruta_destino ∈ st1.fs ∧ config.modo_seguro then
      ({ st1 with archivos_conflictivos := st1.archivos_conflictivos ++ [a.path] },
       false, "conflicto")
    else
      let ruta_final :=
        if ruta_destino ∈ st1.fs then generar_nombre_unico st1.fs ruta_destino
        else ruta_destino
      match io with
      | some PyErr.permission =>
        ({ st1 with estadisticas := { st1.estadisticas with
            errores := st1.estadisticas.errores + 1 } },
         false, "permiso_denegado")
      | some PyErr.otherExc =>
        ({ st1 with estadisticas := { st1.estadisticas with
            errores := st1.estadisticas.errores + 1 } },
         false, "error")
      | none =>
        let fs2 :=
          (if config.mover_archivos then st1.fs.filter (fun q => decide (q ≠ a.path))
           else st1.fs) ++ [ruta_final]
        ({ st1 with
            fs := fs2
            estadisticas := { st1.estadisticas with
              archivos_procesados := st1.estadisticas.archivos_procesados + 1
              archivos_movidos := st1.estadisticas.archivos_movidos + 1
              espacio_liberado := st1.estadisticas.espacio_liberado + a.tamano } },
         true, if config.mover_archivos then "movido" else "copiado")

/-- Result of `organizar_carpeta`: the `{"error": ...}` dict or the
success dict of lines 403-408. -/
inductive ResultadoRun
  | errorRes (msg : String)
  | exitoRes (estadisticas : Estadisticas) (archivos_conflictivos : List Ruta)
deriving DecidableEq

/-- The `for i, archivo in enumerate(archivos)` loop of lines 375-384.
The per-file `io` oracle is indexed by position.  The returned list
records each file's `(exito, mensaje)` pair in processing order (the
source discards these values; recording them observes that every file is
processed exactly once).  The cooperative-cancellation check of line 376
never fires in a single-threaded run and is omitted. -/
def loopArchivos (config : Configuracion) (carpeta : Ruta) (io : Nat → Option PyErr) :
    Estado → List Archivo → Nat → Estado × List (Bool × String)
  | st, [], _ => (st, [])
  | st, a :: resto, i =>
    let r := procesar_archivo config st a (some (carpeta ++ ["Organizados"])) (io i)
    let siguiente := loopArchivos config carpeta io r.1 resto (i + 1)
    (siguiente.1, r.2 :: siguiente.2)

/-- `OrganizadorAutomatico.organizar_carpeta`, lines 345-413:
the concurrent-run guard (returns before any reset), the statistics and
conflict-list reset, the validity check, and the processing loop.
`en_ejecucion` is the running flag at entry; `carpeta_valida` is the
outcome of the `exists()/is_dir()` test of line 363; `archivos` is the
`rglob` enumeration of line 368.  History/aggregate persistence
(lines 386-401) only copies the returned data and is not modelled. -/
def organizar_carpeta (config : Configuracion) (en_ejecucion : Bool) (st : Estado)
    (carpeta : Ruta) (carpeta_valida : Bool) (archivos : List Archivo)
    (io : Nat → Option PyErr) : Estado × ResultadoRun × List (Bool × String) :=
  if en_ejecucion then
    (st, ResultadoRun.errorRes "Ya hay una operación en curso", [])
  else
    let st0 := { st with estadisticas := estadisticasIniciales, archivos_conflictivos := [] }
    if ¬ carpeta_valida then
      (st0, ResultadoRun.errorRes "Carpeta no válida", [])
    else
      let fin := loopArchivos config carpeta io st0 archivos 0
      (fin.1, ResultadoRun.exitoRes fin.1.estadisticas fin.1.archivos_conflictivos, fin.2)

/-- The path the file actually lands at: the candidate destination, or the
collision-resolved name when it already exists (lines 264-270). -/
def ruta_final_de (config : Configuracion) (st : Estado) (a : Archivo)
    (dest : Option Ruta) : Ruta :=
  if ruta_destino_de config st a dest ∈ mkdir_parents st.fs (carpeta_final_de config st a dest)
  then generar_nombre_unico (mkdir_parents st.fs (carpeta_final_de config st a dest))
    (ruta_destino_de config st a dest)
  else ruta_destino_de config st a dest

/-- Default `Archivo` used only as a `getD` fallback. -/
def archivoDefault : Archivo := { path := [], mtime := ⟨0, 0, 0⟩, tamano := 0 }

/-- The date segment list the spec describes for each format variant:
`[YYYY, MM]`, `[YYYY, MM, DD]`, or the single `YYYY-MM` segment. -/
def segmentosFecha (formato : String) (f : Fecha) : List String :=
  if formato = "YYYY/MM" then [strftimeY f.anio, pad2 f.mes]
  else if formato = "AAAA/MM/DD" then [strftimeY f.anio, pad2 f.mes, pad2 f.dia]
  else [strftimeY f.anio ++ "-" ++ pad2 f.mes]

/-! Concrete fixtures used by the witnesses. -/

/-- The source's default operational configuration (lines 71-85) with the
default category table. -/
def configBase : Configuracion :=
  { extensiones := extensiones_default, organizar_por_tipo := true,
    organizar_por_fecha := true, formato_fecha := "YYYY-MM",
    organizar_por_proyecto := false, mover_archivos := true,
    ignorar_ocultos := true, ignorar_sistemas := true,
    tamano_maximo_mb := 500, modo_seguro := false,
    mantener_estructura_original := false }

/-- Safe-mode variant of `configBase`. -/
def configSeguro : Configuracion := { configBase with modo_seguro := true }

/-- Variant with organize-by-date off and organize-by-project on. -/
def configSinFecha : Configuracion :=
  { configBase with organizar_por_fecha := false, organizar_por_proyecto := true }

/-- Variant with both ignore flags off. -/
def configMinimo : Configuracion :=
  { configBase with ignorar_ocultos := false, ignorar_sistemas := false }

/-- A small filesystem with a folder `x` holding three files. -/
def estadoBase : Estado :=
  { estadisticas := estadisticasIniciales, archivos_conflictivos := []
    fs := [["x"], ["x", "photo.JPG"], ["x", "notes.txt"], ["x", ".DS_Store"]] }

/-- `estadoBase` with the organized copy of `photo.JPG` already present. -/
def estadoConflicto : Estado :=
  { estadoBase with
    fs := estadoBase.fs ++ [["x", "Organizados", "Imágenes", "2024-03", "photo.JPG"]] }

/-- A filesystem where the whole destination chain already exists. -/
def estadoLleno : Estado :=
  { estadisticas := estadisticasIniciales, archivos_conflictivos := []
    fs := [[], ["x"], ["x", "Organizados"], ["x", "Organizados", "Imágenes"],
           ["x", "Organizados", "Imágenes", "2024-03"]] }

/-- A 2 MB photo modified on 2024-03-15. -/
def archivoFoto : Archivo :=
  { path := ["x", "photo.JPG"], mtime := ⟨2024, 3, 15⟩, tamano := 2097152 }

/-- A system file. -/
def archivoOculto : Archivo :=
  { path := ["x", ".DS_Store"], mtime := ⟨2024, 1, 1⟩, tamano := 10 }

/-- A file with a temporary extension (upper-cased to exercise lowering). -/
def archivoTemp : Archivo :=
  { path := ["x", "descarga.CRDOWNLOAD"], mtime := ⟨2024, 1, 1⟩, tamano := 10 }

/-- A file larger than the configured 500 MB limit. -/
def archivoGrande : Archivo :=
  { path := ["x", "notes.txt"], mtime := ⟨2024, 3, 15⟩, tamano := 629145600 }

/-- Decimal digit list of `n`, most-significant last, with `0` written
as `[0]` (matching what `Nat.repr` prints). -/
def digitsR (n : Nat) : List Nat := if n = 0 then [0] else Nat.digits 10 n

/-! Auxiliary facts about `Nat.repr`, connecting the fueled core printer
to `Nat.digits`. -/

/-- The decimal digit characters. -/
def digitosDec : List Char := ['0', '1', '2', '3', '4', '5', '6', '7', '8', '9']

lemma toDigitsCore_eq_digits :
    ∀ (f n : Nat) (ds : List Char), 0 < n → n < f →
      Nat.toDigitsCore 10 f n ds =
        ((Nat.digits 10 n).reverse.map Nat.digitChar) ++ ds := by
  intro f
  induction f with
  | zero => intro n ds h1 h2; omega
  | succ f ih =>
    intro n ds h1 h2
    by_cases h : n / 10 = 0
    · have hn10 : n < 10 := (Nat.div_eq_zero_iff (by norm_num)).mp h
      have hd : Nat.digits 10 n = [n % 10] := by
        rw [Nat.digits_def' (by norm_num : (1:Nat) < 10) h1, h, Nat.digits_zero]
      simp [Nat.toDigitsCore, h, hd]
    · have hlt : n / 10 < n := Nat.div_lt_self h1 (by norm_num)
      have hstep : Nat.toDigitsCore 10 (f + 1) n ds =
          Nat.toDigitsCore 10 f (n / 10) (Nat.digitChar (n % 10) :: ds) := by
        simp [Nat.toDigitsCore, h]
      rw [hstep, ih (n / 10) _ (Nat.pos_of_ne_zero h) (by omega)]
      rw [Nat.digits_def' (by norm_num : (1:Nat) < 10) h1]
      simp

lemma toDigits_eq_digits (n : Nat) (h : 0 < n) :
    Nat.toDigits 10 n = (Nat.digits 10 n).reverse.map Nat.digitChar := by
  have := toDigitsCore_eq_digits (n + 1) n [] h (Nat.lt_succ_self n)
  simpa [Nat.toDigits] using this

lemma repr_toList (n : Nat) : (Nat.repr n).toList = Nat.toDigits 10 n := rfl

lemma repr_toList_digits (n : Nat) (h : 0 < n) :
    (Nat.repr n).toList = (Nat.digits 10 n).reverse.map Nat.digitChar := by
  rw [repr_toList, toDigits_eq_digits n h]

lemma repr_zero_toList : (Nat.repr 0).toList = ['0'] := rfl

lemma digitChar_mem_digitosDec {d : Nat} (h : d < 10) : Nat.digitChar d ∈ digitosDec := by
  interval_cases d <;> decide

lemma mem_repr_toList_digitosDec {c : Char} {n : Nat} (h : c ∈ (Nat.repr n).toList) :
    c ∈ digitosDec := by
  rcases Nat.eq_zero_or_pos n with rfl | hn
  · rw [repr_zero_toList] at h
    simp at h
    subst h
    decide
  · rw [repr_toList_digits n hn] at h
    rcases List.mem_map.mp h with ⟨d, hd, rfl⟩
    exact digitChar_mem_digitosDec
      (Nat.digits_lt_base (by norm_num) (List.mem_reverse.mp hd))

lemma repr_length_eq {n k : Nat} (h1 : 10 ^ k ≤ n) (h2 : n < 10 ^ (k + 1)) :
    (Nat.repr n).length = k + 1 := by
  have hn : 0 < n := lt_of_lt_of_le (Nat.pos_pow_of_pos k (by norm_num)) h1
  have hlen : (Nat.repr n).length = (Nat.repr n).toList.length := rfl
  rw [hlen, repr_toList_digits n hn, List.length_map, List.length_reverse,
    Nat.digits_len 10 n (by norm_num) (by omega)]
  rw [Nat.log_eq_of_pow_le_of_lt_pow h1 h2]

lemma repr_toList_digitsR (n : Nat) :
    (Nat.repr n).toList = (digitsR n).reverse.map Nat.digitChar := by
  rcases Nat.eq_zero_or_pos n with rfl | hn
  · rfl
  · rw [repr_toList_digits n hn, digitsR, if_neg (by omega)]

lemma digitsR_lt {n d : Nat} (h : d ∈ digitsR n) : d < 10 := by
  rw [digitsR] at h
  split at h
  · simp at h; omega
  · exact Nat.digits_lt_base (by norm_num) h

lemma ofDigits_digitsR (n : Nat) : Nat.ofDigits 10 (digitsR n) = n := by
  rw [digitsR]
  split
  · simp [Nat.ofDigits]; omega
  · exact Nat.ofDigits_digits 10 n

lemma quitaDigito_digitChar {d : Nat} (h : d < 10) : (Nat.digitChar d).toNat - 48 = d := by
  interval_cases d <;> decide

lemma map_digitChar_inj {l1 l2 : List Nat} (h1 : ∀ d ∈ l1, d < 10) (h2 : ∀ d ∈ l2, d < 10)
    (h : l1.map Nat.digitChar = l2.map Nat.digitChar) : l1 = l2 := by
  have clave : ∀ (l : List Nat), (∀ d ∈ l, d < 10) →
      (l.map Nat.digitChar).map (fun c => Char.toNat c - 48) = l := by
    intro l hl
    rw [List.map_map]
    have he : ∀ d ∈ l, ((fun c => Char.toNat c - 48) ∘ Nat.digitChar) d = id d :=
      fun d hd => quitaDigito_digitChar (hl d hd)
    rw [List.map_congr_left he, List.map_id]
  calc l1 = (l1.map Nat.digitChar).map (fun c => Char.toNat c - 48) := (clave l1 h1).symm
    _ = (l2.map Nat.digitChar).map (fun c => Char.toNat c - 48) := by rw [h]
    _ = l2 := clave l2 h2

lemma repr_inj {n m : Nat} (h : Nat.repr n = Nat.repr m) : n = m := by
  have hl : (digitsR n).reverse.map Nat.digitChar = (digitsR m).reverse.map Nat.digitChar := by
    rw [← repr_toList_digitsR, ← repr_toList_digitsR, h]
  have hrev : (digitsR n).reverse = (digitsR m).reverse :=
    map_digitChar_inj (fun d hd => digitsR_lt (List.mem_reverse.mp hd))
      (fun d hd => digitsR_lt (List.mem_reverse.mp hd)) hl
  have hdig : digitsR n = digitsR m := List.reverse_injective hrev
  rw [← ofDigits_digitsR n, ← ofDigits_digitsR m, hdig]

lemma dash_not_mem_repr (n : Nat) : '-' ∉ (Nat.repr n).toList := by
  intro h
  exact absurd (mem_repr_toList_digitosDec h) (by decide)

lemma repr_length_one {n : Nat} (h : n < 10) : (Nat.repr n).length = 1 := by
  rcases Nat.eq_zero_or_pos n with rfl | hn
  · rfl
  · exact repr_length_eq (by omega) (by norm_num; omega)

lemma repr_length_two {n : Nat} (h1 : 10 ≤ n) (h2 : n < 100) : (Nat.repr n).length = 2 :=
  repr_length_eq (by omega) (by norm_num; omega)

lemma repr_length_four {n : Nat} (h1 : 1000 ≤ n) (h2 : n < 10000) : (Nat.repr n).length = 4 :=
  repr_length_eq (by norm_num; omega) (by norm_num; omega)

lemma toList_length (s : String) : s.toList.length = s.length := rfl

lemma pad2_toList_length {m : Nat} (h : m < 100) : (pad2 m).toList.length = 2 := by
  rw [pad2]
  split
  · rw [toList_length, String.length_append]
    have : (Nat.repr m).length = 1 := repr_length_one (by omega)
    simp [this]
    rfl
  · rw [toList_length]
    exact repr_length_two (by omega) h

lemma dash_not_mem_pad2 (m : Nat) : '-' ∉ (pad2 m).toList := by
  rw [pad2]
  split
  · intro h
    have hsplit : ("0" ++ Nat.repr m).toList = '0' :: (Nat.repr m).toList := by
      exact String.data_append "0" (Nat.repr m)
    rw [hsplit] at h
    rcases List.mem_cons.mp h with h0 | hmem
    · exact absurd h0 (by decide)
    · exact dash_not_mem_repr m hmem
  · exact dash_not_mem_repr m

/-! String and list auxiliary lemmas. -/

lemma toList_append (s t : String) : (s ++ t).toList = s.toList ++ t.toList :=
  String.data_append s t

lemma mk_toList (s : String) : String.mk s.toList = s := rfl

lemma pyTake_append_exact {a b : String} {n : Nat} (h : a.toList.length = n) :
    pyTake (a ++ b) n = a := by
  rw [pyTake, toList_append, ← h, List.take_left]
  exact mk_toList a

lemma pyDrop_append_exact {a b : String} {n : Nat} (h : a.toList.length = n) :
    pyDrop (a ++ b) n = b := by
  rw [pyDrop, toList_append, ← h, List.drop_left]
  exact mk_toList b

lemma pyTake_all {a : String} {n : Nat} (h : a.toList.length = n) : pyTake a n = a := by
  rw [pyTake, ← h, List.take_length]
  exact mk_toList a

lemma pySplitAux_nil (sep : Char) (acc : List Char) :
    pySplitAux sep [] acc = [acc.reverse] := rfl

lemma pySplitAux_cons (sep c : Char) (cs acc : List Char) :
    pySplitAux sep (c :: cs) acc =
      if c = sep then acc.reverse :: pySplitAux sep cs []
      else pySplitAux sep cs (c :: acc) := rfl

lemma pySplitAux_no_sep (sep : Char) :
    ∀ (as acc : List Char), sep ∉ as → pySplitAux sep as acc = [acc.reverse ++ as] := by
  intro as
  induction as with
  | nil => intro acc _; simp [pySplitAux]
  | cons c cs ih =>
    intro acc h
    have hc : c ≠ sep := fun e => h (by simp [e])
    rw [pySplitAux_cons, if_neg hc, ih (c :: acc) (fun hm => h (List.mem_cons_of_mem c hm))]
    simp

lemma pySplitAux_sep (sep : Char) :
    ∀ (as bs acc : List Char), sep ∉ as →
      pySplitAux sep (as ++ sep :: bs) acc = (acc.reverse ++ as) :: pySplitAux sep bs [] := by
  intro as
  induction as with
  | nil => intro bs acc _; simp [pySplitAux]
  | cons c cs ih =>
    intro bs acc h
    have hc : c ≠ sep := fun e => h (by simp [e])
    rw [List.cons_append, pySplitAux_cons, if_neg hc,
      ih bs (c :: acc) (fun hm => h (List.mem_cons_of_mem c hm))]
    simp

lemma pySplit_three {sy sm sd : String} (hy : '-' ∉ sy.toList) (hm : '-' ∉ sm.toList)
    (hd : '-' ∉ sd.toList) :
    pySplit '-' (sy ++ "-" ++ sm ++ "-" ++ sd) = [sy, sm, sd] := by
  rw [pySplit]
  have hlista : (sy ++ "-" ++ sm ++ "-" ++ sd).toList =
      sy.toList ++ '-' :: (sm.toList ++ '-' :: sd.toList) := by
    simp [toList_append]
  rw [hlista, pySplitAux_sep '-' _ _ _ hy, pySplitAux_sep '-' _ _ _ hm,
    pySplitAux_no_sep '-' _ _ hd]
  simp [mk_toList]

/-! Lemmas about `mkdir_parents`. -/

lemma mem_mkdir_parents {fs : List Ruta} {p x : Ruta} :
    x ∈ mkdir_parents fs p ↔ x ∈ fs ∨ x <+: p := by
  simp only [mkdir_parents, List.mem_append, List.mem_filter, List.mem_inits,
    decide_eq_true_eq]
  tauto

lemma subset_mkdir_parents (fs : List Ruta) (p : Ruta) : fs ⊆ mkdir_parents fs p :=
  fun _ hx => mem_mkdir_parents.mpr (Or.inl hx)

lemma append_mem_mkdir_parents {fs : List Ruta} {p : Ruta} {s : String} :
    (p ++ [s]) ∈ mkdir_parents fs p ↔ (p ++ [s]) ∈ fs := by
  rw [mem_mkdir_parents]
  constructor
  · rintro (h | h)
    · exact h
    · have := h.length_le
      simp at this
  · exact Or.inl

/-! Lemmas about `generar_nombre_unico`. -/

lemma nombreNumerado_inj {nb ext : String} {n m : Nat}
    (h : nombreNumerado nb ext n = nombreNumerado nb ext m) : n = m := by
  apply repr_inj
  have hdata : (nombreNumerado nb ext n).data = (nombreNumerado nb ext m).data := by rw [h]
  simp only [nombreNumerado, String.data_append, List.append_assoc] at hdata
  have h1 := List.append_cancel_left hdata
  have h2 := List.append_cancel_left h1
  have h3 := List.append_cancel_right h2
  have h4 : String.mk (Nat.repr n).data = String.mk (Nat.repr m).data := by rw [h3]
  exact h4

lemma exists_libre (fs : List Ruta) (dir : Ruta) (nb ext : String) (c : Nat) :
    ∃ k, k < fs.length + 1 ∧ (dir ++ [nombreNumerado nb ext (c + k)]) ∉ fs := by
  by_contra hcon
  push_neg at hcon
  have hinj : Function.Injective (fun k => dir ++ [nombreNumerado nb ext (c + k)]) := by
    intro x y hxy
    simp only [List.append_cancel_left_eq, List.cons.injEq, and_true] at hxy
    have := nombreNumerado_inj hxy
    omega
  have hnd : ((List.range (fs.length + 1)).map
      (fun k => dir ++ [nombreNumerado nb ext (c + k)])).Nodup :=
    (List.nodup_range _).map hinj
  have hsub : ((List.range (fs.length + 1)).map
      (fun k => dir ++ [nombreNumerado nb ext (c + k)])) ⊆ fs := by
    intro x hx
    rcases List.mem_map.mp hx with ⟨k, hk, rfl⟩
    exact hcon k (List.mem_range.mp hk)
  have h1 := List.toFinset_card_of_nodup hnd
  have h2 : ((List.range (fs.length + 1)).map
      (fun k => dir ++ [nombreNumerado nb ext (c + k)])).toFinset ⊆ fs.toFinset :=
    fun x hx => List.mem_toFinset.mpr (hsub (List.mem_toFinset.mp hx))
  have h3 := Finset.card_le_card h2
  have h4 := List.toFinset_card_le fs
  simp only [List.length_map, List.length_range] at h1
  omega

lemma buscarLibre_spec (fs : List Ruta) (dir : Ruta) (nb ext : String) :
    ∀ (fuel c : Nat), (∃ k, k < fuel ∧ (dir ++ [nombreNumerado nb ext (c + k)]) ∉ fs) →
      ∃ k, k < fuel ∧
        buscarLibre fs dir nb ext c fuel = dir ++ [nombreNumerado nb ext (c + k)] ∧
        (dir ++ [nombreNumerado nb ext (c + k)]) ∉ fs ∧
        ∀ j, j < k → (dir ++ [nombreNumerado nb ext (c + j)]) ∈ fs := by
  intro fuel
  induction fuel with
  | zero =>
    rintro c ⟨k, hk, _⟩
    omega
  | succ fuel ih =>
    rintro c ⟨k, hk, hfree⟩
    by_cases hmem : (dir ++ [nombreNumerado nb ext c]) ∈ fs
    · have hk0 : k ≠ 0 := by
        rintro rfl
        exact hfree (by simpa using hmem)
      have hsig : c + 1 + (k - 1) = c + k := by omega
      obtain ⟨k2, hk2, heq, hfree2, hmin⟩ :=
        ih (c + 1) ⟨k - 1, by omega, by rw [hsig]; exact hfree⟩
      have hidx : c + 1 + k2 = c + (k2 + 1) := by omega
      refine ⟨k2 + 1, by omega, ?_, ?_, ?_⟩
      · simp only [buscarLibre, if_pos hmem]
        rw [heq, hidx]
      · rw [← hidx]
        exact hfree2
      · intro j hj
        rcases Nat.eq_zero_or_pos j with rfl | hj0
        · simpa using hmem
        · have : c + j = c + 1 + (j - 1) := by omega
          rw [this]
          exact hmin (j - 1) (by omega)
    · refine ⟨0, by omega, ?_, by simpa using hmem, by omega⟩
      simp [buscarLibre, hmem]

lemma generar_not_mem (fs : List Ruta) (p : Ruta) : generar_nombre_unico fs p ∉ fs := by
  rw [generar_nombre_unico]
  split
  · obtain ⟨k, _, heq, hfree, _⟩ :=
      buscarLibre_spec fs p.dropLast (nombreBase (nombreDe p)) (sufijoNombre (nombreDe p))
        (fs.length + 1) 1
        (exists_libre fs p.dropLast (nombreBase (nombreDe p)) (sufijoNombre (nombreDe p)) 1)
    rw [heq]
    exact hfree
  · assumption

/-! Lemmas about `obtener_categoria`. -/

lemma obtener_categoria_lista_no_mem (extension : String) :
    ∀ tabla : List (String × List String), (∀ par ∈ tabla, extension ∉ par.2) →
      obtener_categoria_lista extension tabla = "Otros" := by
  intro tabla
  induction tabla with
  | nil => intro _; rfl
  | cons par resto ih =>
    intro h
    obtain ⟨categoria, extensiones⟩ := par
    rw [obtener_categoria_lista,
      if_neg (h (categoria, extensiones) (List.mem_cons_self _ _))]
    exact ih (fun q hq => h q (List.mem_cons_of_mem _ hq))

lemma obtener_categoria_lista_primero (extension : String) :
    ∀ (tabla : List (String × List String)) (i : Nat), i < tabla.length →
      extension ∈ (tabla.getD i ("", [])).2 →
      (∀ j, j < i → extension ∉ (tabla.getD j ("", [])).2) →
      obtener_categoria_lista extension tabla = (tabla.getD i ("", [])).1 := by
  intro tabla
  induction tabla with
  | nil => intro i hi; simp at hi
  | cons par resto ih =>
    intro i hi hmem hmin
    obtain ⟨categoria, extensiones⟩ := par
    match i with
    | 0 =>
      simp only [List.getD_cons_zero] at hmem ⊢
      rw [obtener_categoria_lista, if_pos hmem]
    | i + 1 =>
      have hno : extension ∉ extensiones := by
        have := hmin 0 (Nat.succ_pos i)
        simpa using this
      rw [obtener_categoria_lista, if_neg hno]
      simp only [List.getD_cons_succ] at hmem ⊢
      exact ih i (by simpa using hi) hmem
        (fun j hj => by
          have := hmin (j + 1) (by omega)
          simpa using this)

/-! Branch lemmas for `procesar_archivo`. -/

lemma crear_fst (config : Configuracion) (st : Estado) (base : Ruta) (cats : List String) :
    (crear_estructura_carpetas config st base cats).1 =
      { st with
          fs := mkdir_parents st.fs (rutaCarpeta config base cats)
          estadisticas := { st.estadisticas with
            carpetas_creadas := st.estadisticas.carpetas_creadas + 1 } } := rfl

lemma crear_snd (config : Configuracion) (st : Estado) (base : Ruta) (cats : List String) :
    (crear_estructura_carpetas config st base cats).2 = rutaCarpeta config base cats := rfl

lemma procesar_ignorado (config : Configuracion) (st : Estado) (a : Archivo)
    (dest : Option Ruta) (io : Option PyErr) (hig : debe_ignorar config a.path = true) :
    procesar_archivo config st a dest io =
      ({ st with estadisticas := { st.estadisticas with
          archivos_omitidos := st.estadisticas.archivos_omitidos + 1 } },
       false, "ignorado") := by
  rw [procesar_archivo, if_pos hig]

lemma procesar_tamano (config : Configuracion) (st : Estado) (a : Archivo)
    (dest : Option Ruta) (io : Option PyErr) (hig : debe_ignorar config a.path = false)
    (htam : excede_tamano config a.tamano = true) :
    procesar_archivo config st a dest io =
      ({ st with estadisticas := { st.estadisticas with
          archivos_omitidos := st.estadisticas.archivos_omitidos + 1 } },
       false, "tamaño_excedido") := by
  rw [procesar_archivo, if_neg (by simp [hig]), if_pos htam]

lemma procesar_conflicto (config : Configuracion) (st : Estado) (a : Archivo)
    (dest : Option Ruta) (io : Option PyErr)
    (hig : debe_ignorar config a.path = false)
    (htam : excede_tamano config a.tamano = false)
    (hseg : config.modo_seguro = true)
    (hmem : ruta_destino_de config st a dest ∈ st.fs) :
    procesar_archivo config st a dest io =
      ({ st with
          fs := mkdir_parents st.fs (carpeta_final_de config st a dest)
          estadisticas := { st.estadisticas with
            carpetas_creadas := st.estadisticas.carpetas_creadas + 1 }
          archivos_conflictivos := st.archivos_conflictivos ++ [a.path] },
       false, "conflicto") := by
  have hcond : rutaCarpeta config (destino_base config a dest) (categorias_de config st.fs a)
        ++ [nombreDe a.path] ∈
      mkdir_parents st.fs (rutaCarpeta config (destino_base config a dest)
        (categorias_de config st.fs a)) ∧ config.modo_seguro = true :=
    ⟨append_mem_mkdir_parents.mpr hmem, hseg⟩
  simp only [procesar_archivo, hig, htam, Bool.false_eq_true, if_false,
    crear_fst, crear_snd]
  rw [if_pos hcond]
  rfl

lemma procesar_permiso (config : Configuracion) (st : Estado) (a : Archivo)
    (dest : Option Ruta)
    (hig : debe_ignorar config a.path = false)
    (htam : excede_tamano config a.tamano = false)
    (hns : ¬ (ruta_destino_de config st a dest ∈ st.fs ∧ config.modo_seguro = true)) :
    procesar_archivo config st a dest (some PyErr.permission) =
      ({ st with
          fs := mkdir_parents st.fs (carpeta_final_de config st a dest)
          estadisticas := { st.estadisticas with
            carpetas_creadas := st.estadisticas.carpetas_creadas + 1
            errores := st.estadisticas.errores + 1 } },
       false, "permiso_denegado") := by
  have hcond : ¬ (rutaCarpeta config (destino_base config a dest)
        (categorias_de config st.fs a) ++ [nombreDe a.path] ∈
      mkdir_parents st.fs (rutaCarpeta config (destino_base config a dest)
        (categorias_de config st.fs a)) ∧ config.modo_seguro = true) := by
    intro h
    exact hns ⟨append_mem_mkdir_parents.mp h.1, h.2⟩
  simp only [procesar_archivo, hig, htam, Bool.false_eq_true, if_false,
    crear_fst, crear_snd]
  rw [if_neg hcond]
  rfl

lemma procesar_otro (config : Configuracion) (st : Estado) (a : Archivo)
    (dest : Option Ruta)
    (hig : debe_ignorar config a.path = false)
    (htam : excede_tamano config a.tamano = false)
    (hns : ¬ (ruta_destino_de config st a dest ∈ st.fs ∧ config.modo_seguro = true)) :
    procesar_archivo config st a dest (some PyErr.otherExc) =
      ({ st with
          fs := mkdir_parents st.fs (carpeta_final_de config st a dest)
          estadisticas := { st.estadisticas with
            carpetas_creadas := st.estadisticas.carpetas_creadas + 1
            errores := st.estadisticas.errores + 1 } },
       false, "error") := by
  have hcond : ¬ (rutaCarpeta config (destino_base config a dest)
        (categorias_de config st.fs a) ++ [nombreDe a.path] ∈
      mkdir_parents st.fs (rutaCarpeta config (destino_base config a dest)
        (categorias_de config st.fs a)) ∧ config.modo_seguro = true) := by
    intro h
    exact hns ⟨append_mem_mkdir_parents.mp h.1, h.2⟩
  simp only [procesar_archivo, hig, htam, Bool.false_eq_true, if_false,
    crear_fst, crear_snd]
  rw [if_neg hcond]
  rfl

lemma procesar_exito (config : Configuracion) (st : Estado) (a : Archivo)
    (dest : Option Ruta)
    (hig : debe_ignorar config a.path = false)
    (htam : excede_tamano config a.tamano = false)
    (hns : ¬ (ruta_destino_de config st a dest ∈ st.fs ∧ config.modo_seguro = true)) :
    procesar_archivo config st a dest none =
      ({ st with
          fs := (if config.mover_archivos
                  then (mkdir_parents st.fs (carpeta_final_de config st a dest)).filter
                    (fun q => decide (q ≠ a.path))
                  else mkdir_parents st.fs (carpeta_final_de config st a dest))
                ++ [ruta_final_de config st a dest]
          estadisticas := { st.estadisticas with
            carpetas_creadas := st.estadisticas.carpetas_creadas + 1
            archivos_procesados := st.estadisticas.archivos_procesados + 1
            archivos_movidos := st.estadisticas.archivos_movidos + 1
            espacio_liberado := st.estadisticas.espacio_liberado + a.tamano } },
       true, if config.mover_archivos then "movido" else "copiado") := by
  have hcond : ¬ (rutaCarpeta config (destino_base config a dest)
        (categorias_de config st.fs a) ++ [nombreDe a.path] ∈
      mkdir_parents st.fs (rutaCarpeta config (destino_base config a dest)
        (categorias_de config st.fs a)) ∧ config.modo_seguro = true) := by
    intro h
    exact hns ⟨append_mem_mkdir_parents.mp h.1, h.2⟩
  simp only [procesar_archivo, hig, htam, Bool.false_eq_true, if_false,
    crear_fst, crear_snd]
  rw [if_neg hcond]
  rfl

lemma procesar_fs_pres (config : Configuracion) (st : Estado) (a : Archivo)
    (dest : Option Ruta) (io : Option PyErr) (p : Ruta) (hp : p ∈ st.fs)
    (hskip : a.path = p →
      debe_ignorar config a.path = true ∨ excede_tamano config a.tamano = true) :
    p ∈ (procesar_archivo config st a dest io).1.fs := by
  by_cases hig : debe_ignorar config a.path = true
  · rw [procesar_ignorado config st a dest io hig]
    exact hp
  · have hig2 : debe_ignorar config a.path = false := by simpa using hig
    by_cases htam : excede_tamano config a.tamano = true
    · rw [procesar_tamano config st a dest io hig2 htam]
      exact hp
    · have htam2 : excede_tamano config a.tamano = false := by simpa using htam
      have hne : p ≠ a.path := by
        intro he
        rcases hskip he.symm with h | h
        · exact hig h
        · exact htam h
      by_cases hcs : ruta_destino_de config st a dest ∈ st.fs ∧ config.modo_seguro = true
      · rw [procesar_conflicto config st a dest io hig2 htam2 hcs.2 hcs.1]
        exact subset_mkdir_parents _ _ hp
      · cases io with
        | none =>
          rw [procesar_exito config st a dest hig2 htam2 hcs]
          apply List.mem_append_left
          split
          · exact List.mem_filter.mpr ⟨subset_mkdir_parents _ _ hp, by simpa using hne⟩
          · exact subset_mkdir_parents _ _ hp
        | some e =>
          cases e with
          | permission =>
            rw [procesar_permiso config st a dest hig2 htam2 hcs]
            exact subset_mkdir_parents _ _ hp
          | otherExc =>
            rw [procesar_otro config st a dest hig2 htam2 hcs]
            exact subset_mkdir_parents _ _ hp

lemma loopArchivos_nil (config : Configuracion) (carpeta : Ruta) (io : Nat → Option PyErr)
    (st : Estado) (i : Nat) : loopArchivos config carpeta io st [] i = (st, []) := rfl

lemma loopArchivos_cons (config : Configuracion) (carpeta : Ruta) (io : Nat → Option PyErr)
    (st : Estado) (a : Archivo) (resto : List Archivo) (i : Nat) :
    loopArchivos config carpeta io st (a :: resto) i =
      ((loopArchivos config carpeta io
          (procesar_archivo config st a (some (carpeta ++ ["Organizados"])) (io i)).1
          resto (i + 1)).1,
       (procesar_archivo config st a (some (carpeta ++ ["Organizados"])) (io i)).2 ::
       (loopArchivos config carpeta io
          (procesar_archivo config st a (some (carpeta ++ ["Organizados"])) (io i)).1
          resto (i + 1)).2) := rfl

lemma loopArchivos_length (config : Configuracion) (carpeta : Ruta)
    (io : Nat → Option PyErr) :
    ∀ (archivos : List Archivo) (st : Estado) (i : Nat),
      (loopArchivos config carpeta io st archivos i).2.length = archivos.length := by
  intro archivos
  induction archivos with
  | nil => intro st i; rfl
  | cons a resto ih =>
    intro st i
    rw [loopArchivos_cons]
    simp [ih]

lemma loopArchivos_pres (config : Configuracion) (carpeta : Ruta)
    (io : Nat → Option PyErr) :
    ∀ (archivos : List Archivo) (st : Estado) (i : Nat) (p : Ruta), p ∈ st.fs →
      (∀ b ∈ archivos, b.path = p →
        debe_ignorar config b.path = true ∨ excede_tamano config b.tamano = true) →
      p ∈ (loopArchivos config carpeta io st archivos i).1.fs := by
  intro archivos
  induction archivos with
  | nil => intro st i p hp _; exact hp
  | cons a resto ih =>
    intro st i p hp hcond
    rw [loopArchivos_cons]
    exact ih _ (i + 1) p
      (procesar_fs_pres config st a _ (io i) p hp (hcond a (List.mem_cons_self _ _)))
      (fun b hb => hcond b (List.mem_cons_of_mem _ hb))

lemma loopArchivos_trace_ignorado (config : Configuracion) (carpeta : Ruta)
    (io : Nat → Option PyErr) :
    ∀ (archivos : List Archivo) (st : Estado) (i j : Nat), j < archivos.length →
      debe_ignorar config (archivos.getD j archivoDefault).path = true →
      (loopArchivos config carpeta io st archivos i).2.getD j (true, "") =
        (false, "ignorado") := by
  intro archivos
  induction archivos with
  | nil => intro st i j hj; simp at hj
  | cons a resto ih =>
    intro st i j hj hig
    rw [loopArchivos_cons]
    match j with
    | 0 =>
      simp only [List.getD_cons_zero] at hig ⊢
      rw [procesar_ignorado config st a _ (io i) hig]
    | j + 1 =>
      simp only [List.getD_cons_succ] at hig ⊢
      exact ih _ (i + 1) j (by simpa using hj) hig

lemma loopArchivos_trace_tamano (config : Configuracion) (carpeta : Ruta)
    (io : Nat → Option PyErr) :
    ∀ (archivos : List Archivo) (st : Estado) (i j : Nat), j < archivos.length →
      debe_ignorar config (archivos.getD j archivoDefault).path = false →
      excede_tamano config (archivos.getD j archivoDefault).tamano = true →
      (loopArchivos config carpeta io st archivos i).2.getD j (true, "") =
        (false, "tamaño_excedido") := by
  intro archivos
  induction archivos with
  | nil => intro st i j hj; simp at hj
  | cons a resto ih =>
    intro st i j hj hig htam
    rw [loopArchivos_cons]
    match j with
    | 0 =>
      simp only [List.getD_cons_zero] at hig htam ⊢
      rw [procesar_tamano config st a _ (io i) hig htam]
    | j + 1 =>
      simp only [List.getD_cons_succ] at hig htam ⊢
      exact ih _ (i + 1) j (by simpa using hj) hig htam

lemma pyOr_proyecto_ne (x : Option String) : pyOr x "Sin Proyecto" ≠ "" := by
  match x with
  | none => decide
  | some s =>
    show (if s = "" then "Sin Proyecto" else s) ≠ ""
    split
    · decide
    · assumption

/-- C1: the Category Resolver lowercases its input and scans the configured
categories in order; it returns the first category whose list contains the
lowered extension, and the fallback `"Otros"` when no list contains it. -/
theorem c1_obtener_categoria (config : Configuracion) (extension : String) :
    ((∀ par ∈ config.extensiones, pyLower extension ∉ par.2) →
      obtener_categoria config extension = "Otros") ∧
    (∀ i, i < config.extensiones.length →
      pyLower extension ∈ (config.extensiones.getD i ("", [])).2 →
      (∀ j, j < i → pyLower extension ∉ (config.extensiones.getD j ("", [])).2) →
      obtener_categoria config extension = (config.extensiones.getD i ("", [])).1) := by
  constructor
  · intro h
    exact obtener_categoria_lista_no_mem _ _ h
  · intro i hi hm hmin
    exact obtener_categoria_lista_primero _ _ i hi hm hmin

theorem c1_testigo :
    obtener_categoria configBase ".JPG" = "Imágenes" ∧
    obtener_categoria configBase ".xyz" = "Otros" := by
  constructor
  · exact (c1_obtener_categoria configBase ".JPG").2 0 (by decide) (by decide)
      (fun j hj => absurd hj (by omega))
  · exact (c1_obtener_categoria configBase ".xyz").1 (by decide)

theorem c2_contraejemplo :
    rutaCarpeta configSinFecha ["base"]
      (buildCategorias configSinFecha "Documentos" (some "Alpha") ⟨2024, 3, 15⟩) =
      ["base", "Documentos"] ∧
    (["base", "Documentos"] : Ruta) ≠ ["base", "Documentos", "Alpha"] := by
  decide

/-- C2 (amended): the Destination Path Builder appends, in fixed order, the
category segment iff organize-by-type is enabled, the date segment(s)
decomposed per the configured format iff organize-by-date is enabled, and
the project segment (with the `"Sin Proyecto"` fallback) iff organize-by-project
AND organize-by-date are both enabled — not, as the original claim stated,
whenever organize-by-project alone is enabled: with organize-by-date off the
project name sits at index 1 of `categorias` and the `len(categorias) > 2`
guard of line 203 rejects it. -/
theorem c2_segmentos_destino (config : Configuracion) (base : Ruta) (cat : String)
    (proy : Option String) (f : Fecha)
    (h1 : 1000 ≤ f.anio) (h2 : f.anio < 10000) (h3 : f.mes < 100) (h4 : f.dia < 100) :
    rutaCarpeta config base (buildCategorias config cat proy f) =
      base ++ (if config.organizar_por_tipo then [cat] else [])
           ++ (if config.organizar_por_fecha then segmentosFecha config.formato_fecha f else [])
           ++ (if config.organizar_por_proyecto ∧ config.organizar_por_fecha
               then [pyOr proy "Sin Proyecto"] else []) := by
  obtain ⟨y, m, d⟩ := f
  simp only at h1 h2 h3 h4
  have hy4 : (strftimeY y).toList.length = 4 := by
    rw [toList_length]
    exact repr_length_four h1 h2
  have hslash : ((strftimeY y ++ "/").toList.length = 5) := by
    rw [toList_append, List.length_append, hy4]
    rfl
  have e1 : pyTake (strftimeY y ++ "/" ++ pad2 m) 4 = strftimeY y := by
    rw [String.append_assoc]
    exact pyTake_append_exact hy4
  have e2 : pyDrop (strftimeY y ++ "/" ++ pad2 m) 5 = pad2 m :=
    pyDrop_append_exact hslash
  have e3 : pyTake (pad2 m) 2 = pad2 m := pyTake_all (pad2_toList_length h3)
  have epartes : pySplit '-' (strftimeY y ++ "-" ++ pad2 m ++ "-" ++ pad2 d) =
      [strftimeY y, pad2 m, pad2 d] :=
    pySplit_three (dash_not_mem_repr y) (dash_not_mem_pad2 m) (dash_not_mem_pad2 d)
  by_cases ht : config.organizar_por_tipo = true <;>
    by_cases hf : config.organizar_por_fecha = true <;>
      by_cases hp : config.organizar_por_proyecto = true
  all_goals (
    simp only [buildCategorias, rutaCarpeta, segmentosFecha, fmtFecha, ht, hf, hp,
      Bool.false_eq_true, if_true, if_false] <;>
    first
      | (by_cases hfmt1 : config.formato_fecha = "YYYY/MM" <;>
          by_cases hfmt2 : config.formato_fecha = "AAAA/MM/DD" <;>
          simp [hfmt1, hfmt2, e1, e2, e3, epartes, pyOr_proyecto_ne, List.append_assoc])
      | simp [List.append_assoc])

theorem c2_testigo :
    rutaCarpeta configBase ["b"] (buildCategorias configBase "Documentos" none ⟨2024, 3, 15⟩) =
      ["b", "Documentos", "2024-03"] := by
  have h := c2_segmentos_destino configBase ["b"] "Documentos" none ⟨2024, 3, 15⟩
    (by norm_num) (by norm_num) (by norm_num) (by norm_num)
  rw [h]
  decide

/-- C3: with safe mode enabled, when the computed destination file path
already exists, `procesar_archivo` records the original path in the conflict
list and returns the `"conflicto"` outcome; the filesystem only gains the
`mkdir` directories (no move or copy), the error and moved counters are
unchanged, and the file stays at its original location. -/
theorem c3_modo_seguro_conflicto (config : Configuracion) (st : Estado) (a : Archivo)
    (dest : Option Ruta) (io : Option PyErr)
    (hig : debe_ignorar config a.path = false)
    (htam : excede_tamano config a.tamano = false)
    (hseg : config.modo_seguro = true)
    (hmem : ruta_destino_de config st a dest ∈ st.fs) :
    procesar_archivo config st a dest io =
      ({ st with
          fs := mkdir_parents st.fs (carpeta_final_de config st a dest)
          estadisticas := { st.estadisticas with
            carpetas_creadas := st.estadisticas.carpetas_creadas + 1 }
          archivos_conflictivos := st.archivos_conflictivos ++ [a.path] },
       false, "conflicto") ∧
    (procesar_archivo config st a dest io).1.estadisticas.errores =
      st.estadisticas.errores ∧
    (procesar_archivo config st a dest io).1.estadisticas.archivos_movidos =
      st.estadisticas.archivos_movidos ∧
    (a.path ∈ st.fs → a.path ∈ (procesar_archivo config st a dest io).1.fs) := by
  have h := procesar_conflicto config st a dest io hig htam hseg hmem
  refine ⟨h, ?_, ?_, ?_⟩
  · rw [h]
  · rw [h]
  · intro hp
    rw [h]
    exact subset_mkdir_parents _ _ hp

theorem c3_testigo :
    (procesar_archivo configSeguro estadoConflicto archivoFoto
        (some ["x", "Organizados"]) none).2 = (false, "conflicto") ∧
    (procesar_archivo configSeguro estadoConflicto archivoFoto
        (some ["x", "Organizados"]) none).1.archivos_conflictivos =
      [["x", "photo.JPG"]] ∧
    ["x", "photo.JPG"] ∈ (procesar_archivo configSeguro estadoConflicto archivoFoto
        (some ["x", "Organizados"]) none).1.fs := by
  have h := c3_modo_seguro_conflicto configSeguro estadoConflicto archivoFoto
    (some ["x", "Organizados"]) none (by decide) (by decide) (by decide) (by decide)
  refine ⟨?_, ?_, h.2.2.2 (by decide)⟩
  · rw [h.1]
  · rw [h.1]
    decide

/-- C4: `generar_nombre_unico` returns a non-existing candidate unchanged;
an existing candidate becomes `stem (N).ext` in the same directory for some
N ≥ 1 whose predecessors 1..N-1 all exist (so N is the smallest free index);
and the returned path never exists in the filesystem at call time. -/
theorem c4_generar_nombre_unico (fs : List Ruta) (p : Ruta) :
    (p ∉ fs → generar_nombre_unico fs p = p) ∧
    (p ∈ fs → ∃ n, 1 ≤ n ∧
      generar_nombre_unico fs p =
        p.dropLast ++
          [nombreNumerado (nombreBase (nombreDe p)) (sufijoNombre (nombreDe p)) n] ∧
      (∀ j, 1 ≤ j → j < n →
        p.dropLast ++
          [nombreNumerado (nombreBase (nombreDe p)) (sufijoNombre (nombreDe p)) j] ∈ fs)) ∧
    generar_nombre_unico fs p ∉ fs := by
  refine ⟨?_, ?_, generar_not_mem fs p⟩
  · intro h
    rw [generar_nombre_unico, if_neg h]
  · intro h
    rw [generar_nombre_unico, if_pos h]
    obtain ⟨k, hk, heq, hfree, hmin⟩ :=
      buscarLibre_spec fs p.dropLast (nombreBase (nombreDe p)) (sufijoNombre (nombreDe p))
        (fs.length + 1) 1
        (exists_libre fs p.dropLast (nombreBase (nombreDe p)) (sufijoNombre (nombreDe p)) 1)
    refine ⟨1 + k, by omega, heq, ?_⟩
    intro j hj1 hjk
    have hidx : j = 1 + (j - 1) := by omega
    rw [hidx]
    exact hmin (j - 1) (by omega)

theorem c4_testigo :
    generar_nombre_unico [["a", "f.txt"], ["a", "f (1).txt"]] ["a", "f.txt"] ∉
      ([["a", "f.txt"], ["a", "f (1).txt"]] : List Ruta) ∧
    generar_nombre_unico [["a", "f.txt"], ["a", "f (1).txt"]] ["a", "g.txt"] =
      ["a", "g.txt"] := by
  refine ⟨(c4_generar_nombre_unico [["a", "f.txt"], ["a", "f (1).txt"]] ["a", "f.txt"]).2.2,
    (c4_generar_nombre_unico [["a", "f.txt"], ["a", "f (1).txt"]] ["a", "g.txt"]).1 (by decide)⟩

lemma organizar_normal (config : Configuracion) (st : Estado) (carpeta : Ruta)
    (archivos : List Archivo) (io : Nat → Option PyErr) :
    organizar_carpeta config false st carpeta true archivos io =
      ((loopArchivos config carpeta io
          { st with estadisticas := estadisticasIniciales, archivos_conflictivos := [] }
          archivos 0).1,
       ResultadoRun.exitoRes
         (loopArchivos config carpeta io
            { st with estadisticas := estadisticasIniciales, archivos_conflictivos := [] }
            archivos 0).1.estadisticas
         (loopArchivos config carpeta io
            { st with estadisticas := estadisticasIniciales, archivos_conflictivos := [] }
            archivos 0).1.archivos_conflictivos,
       (loopArchivos config carpeta io
          { st with estadisticas := estadisticasIniciales, archivos_conflictivos := [] }
          archivos 0).2) := rfl

/-- C5: a file rejected by the ignore test or by the size test increments
the skipped counter and yields the `"ignorado"` / `"tamaño_excedido"`
outcome, with the filesystem untouched by that call; and over a whole batch
(with pairwise-distinct file paths) such a file's original path is still
present when the run completes. -/
theorem c5_omitidos (config : Configuracion) (st : Estado) (a : Archivo)
    (dest : Option Ruta) (io : Option PyErr) (carpeta : Ruta)
    (archivos : List Archivo) (ioSeq : Nat → Option PyErr) :
    (debe_ignorar config a.path = true →
      procesar_archivo config st a dest io =
        ({ st with estadisticas := { st.estadisticas with
            archivos_omitidos := st.estadisticas.archivos_omitidos + 1 } },
         false, "ignorado")) ∧
    (debe_ignorar config a.path = false → excede_tamano config a.tamano = true →
      procesar_archivo config st a dest io =
        ({ st with estadisticas := { st.estadisticas with
            archivos_omitidos := st.estadisticas.archivos_omitidos + 1 } },
         false, "tamaño_excedido")) ∧
    (∀ j, j < archivos.length →
      debe_ignorar config (archivos.getD j archivoDefault).path = true →
      (organizar_carpeta config false st carpeta true archivos ioSeq).2.2.getD j (true, "") =
        (false, "ignorado")) ∧
    (∀ j, j < archivos.length →
      debe_ignorar config (archivos.getD j archivoDefault).path = false →
      excede_tamano config (archivos.getD j archivoDefault).tamano = true →
      (organizar_carpeta config false st carpeta true archivos ioSeq).2.2.getD j (true, "") =
        (false, "tamaño_excedido")) ∧
    (a ∈ archivos → a.path ∈ st.fs →
      (debe_ignorar config a.path = true ∨ excede_tamano config a.tamano = true) →
      (archivos.map Archivo.path).Nodup →
      a.path ∈ (organizar_carpeta config false st carpeta true archivos ioSeq).1.fs) := by
  refine ⟨?_, ?_, ?_, ?_, ?_⟩
  · intro hig
    exact procesar_ignorado config st a dest io hig
  · intro hig htam
    exact procesar_tamano config st a dest io hig htam
  · intro j hj hig
    rw [organizar_normal]
    exact loopArchivos_trace_ignorado config carpeta ioSeq archivos _ 0 j hj hig
  · intro j hj hig htam
    rw [organizar_normal]
    exact loopArchivos_trace_tamano config carpeta ioSeq archivos _ 0 j hj hig htam
  · intro ha hfs hskip hnd
    rw [organizar_normal]
    show a.path ∈ (loopArchivos config carpeta ioSeq
        { st with estadisticas := estadisticasIniciales, archivos_conflictivos := [] }
        archivos 0).1.fs
    refine loopArchivos_pres config carpeta ioSeq archivos
      { st with estadisticas := estadisticasIniciales, archivos_conflictivos := [] }
      0 a.path hfs ?_
    intro b hb hbp
    have hba : b = a := List.inj_on_of_nodup_map hnd hb ha hbp
    rw [hba]
    rcases hskip with h | h
    · exact Or.inl h
    · exact Or.inr h

theorem c5_testigo :
    (organizar_carpeta configBase false estadoBase ["x"] true [archivoFoto, archivoOculto]
        (fun _ => none)).2.2.getD 1 (true, "") = (false, "ignorado") ∧
    ["x", ".DS_Store"] ∈ (organizar_carpeta configBase false estadoBase ["x"] true
        [archivoFoto, archivoOculto] (fun _ => none)).1.fs ∧
    (procesar_archivo configBase estadoBase archivoGrande (some ["x", "Organizados"]) none).2 =
      (false, "tamaño_excedido") := by
  have h := c5_omitidos configBase estadoBase archivoOculto (some ["x", "Organizados"]) none
    ["x"] [archivoFoto, archivoOculto] (fun _ => none)
  have hg := c5_omitidos configBase estadoBase archivoGrande (some ["x", "Organizados"]) none
    ["x"] [] (fun _ => none)
  refine ⟨h.2.2.1 1 (by decide) (by decide), ?_, ?_⟩
  · exact h.2.2.2.2 (by decide) (by decide) (Or.inl (by decide)) (by decide)
  · rw [hg.2.1 (by decide) (by decide)]

/-- C6: a `PermissionError` raised by the move/copy primitive is caught and
reported as the `"permiso_denegado"` outcome with the error counter
incremented; any other exception becomes the `"error"` outcome, also counted;
and the batch loop always emits one outcome per enumerated file, whatever the
per-file oracle does — no failure aborts the run (the model is a total
function, so no exception can escape). -/
theorem c6_errores (config : Configuracion) (st : Estado) (a : Archivo)
    (dest : Option Ruta) :
    (debe_ignorar config a.path = false → excede_tamano config a.tamano = false →
      ¬ (ruta_destino_de config st a dest ∈ st.fs ∧ config.modo_seguro = true) →
      procesar_archivo config st a dest (some PyErr.permission) =
        ({ st with
            fs := mkdir_parents st.fs (carpeta_final_de config st a dest)
            estadisticas := { st.estadisticas with
              carpetas_creadas := st.estadisticas.carpetas_creadas + 1
              errores := st.estadisticas.errores + 1 } },
         false, "permiso_denegado")) ∧
    (debe_ignorar config a.path = false → excede_tamano config a.tamano = false →
      ¬ (ruta_destino_de config st a dest ∈ st.fs ∧ config.modo_seguro = true) →
      procesar_archivo config st a dest (some PyErr.otherExc) =
        ({ st with
            fs := mkdir_parents st.fs (carpeta_final_de config st a dest)
            estadisticas := { st.estadisticas with
              carpetas_creadas := st.estadisticas.carpetas_creadas + 1
              errores := st.estadisticas.errores + 1 } },
         false, "error")) ∧
    (∀ (carpeta : Ruta) (archivos : List Archivo) (ioSeq : Nat → Option PyErr),
      (organizar_carpeta config false st carpeta true archivos ioSeq).2.2.length =
        archivos.length) := by
  refine ⟨?_, ?_, ?_⟩
  · intro hig htam hns
    exact procesar_permiso config st a dest hig htam hns
  · intro hig htam hns
    exact procesar_otro config st a dest hig htam hns
  · intro carpeta archivos ioSeq
    rw [organizar_normal]
    exact loopArchivos_length config carpeta ioSeq archivos _ 0

theorem c6_testigo :
    (procesar_archivo configBase estadoBase archivoFoto (some ["x", "Organizados"])
        (some PyErr.permission)).2 = (false, "permiso_denegado") ∧
    (procesar_archivo configBase estadoBase archivoFoto (some ["x", "Organizados"])
        (some PyErr.permission)).1.estadisticas.errores = 1 ∧
    (organizar_carpeta configBase false estadoBase ["x"] true [archivoFoto, archivoOculto]
        (fun _ => some PyErr.otherExc)).2.2.length = 2 := by
  have h := c6_errores configBase estadoBase archivoFoto (some ["x", "Organizados"])
  refine ⟨?_, ?_, ?_⟩
  · rw [h.1 (by decide) (by decide) (by decide)]
  · rw [h.1 (by decide) (by decide) (by decide)]
    decide
  · have hl := h.2.2 ["x"] [archivoFoto, archivoOculto] (fun _ => some PyErr.otherExc)
    rw [hl]
    decide

/-- C7: the Collision Resolver is idempotent — its output never exists in
the filesystem, so feeding the output back in returns it unchanged. -/
theorem c7_idempotente (fs : List Ruta) (p : Ruta) :
    generar_nombre_unico fs (generar_nombre_unico fs p) = generar_nombre_unico fs p := by
  conv_lhs => rw [generar_nombre_unico]
  rw [if_neg (generar_not_mem fs p)]

/-- C8: starting a run while the running flag is set returns the
`"Ya hay una operación en curso"` error immediately: the state (statistics,
conflict list, filesystem) is returned untouched and no file is processed
(the outcome trace is empty). -/
theorem c8_guardia_concurrente (config : Configuracion) (st : Estado) (carpeta : Ruta)
    (valida : Bool) (archivos : List Archivo) (io : Nat → Option PyErr) :
    organizar_carpeta config true st carpeta valida archivos io =
      (st, ResultadoRun.errorRes "Ya hay una operación en curso", []) := rfl

/-- C9: the folder-created counter increments by exactly one on every call
to `crear_estructura_carpetas` — even when the whole destination chain
already exists — and hence once for every file that reaches destination
resolution in `procesar_archivo`, whatever happens afterwards. -/
theorem c9_contador_carpetas (config : Configuracion) (st : Estado) (base : Ruta)
    (cats : List String) (a : Archivo) (dest : Option Ruta) (io : Option PyErr) :
    ((crear_estructura_carpetas config st base cats).1.estadisticas.carpetas_creadas =
      st.estadisticas.carpetas_creadas + 1) ∧
    (debe_ignorar config a.path = false → excede_tamano config a.tamano = false →
      (procesar_archivo config st a dest io).1.estadisticas.carpetas_creadas =
        st.estadisticas.carpetas_creadas + 1) := by
  constructor
  · rw [crear_fst]
  · intro hig htam
    by_cases hcs : ruta_destino_de config st a dest ∈ st.fs ∧ config.modo_seguro = true
    · rw [procesar_conflicto config st a dest io hig htam hcs.2 hcs.1]
    · cases io with
      | none => rw [procesar_exito config st a dest hig htam hcs]
      | some e =>
        cases e with
        | permission => rw [procesar_permiso config st a dest hig htam hcs]
        | otherExc => rw [procesar_otro config st a dest hig htam hcs]

theorem c9_testigo :
    rutaCarpeta configBase ["x", "Organizados"] ["Imágenes", "2024-03"] ∈ estadoLleno.fs ∧
    (crear_estructura_carpetas configBase estadoLleno ["x", "Organizados"]
        ["Imágenes", "2024-03"]).1.estadisticas.carpetas_creadas = 1 ∧
    (procesar_archivo configBase estadoBase archivoFoto (some ["x", "Organizados"])
        none).1.estadisticas.carpetas_creadas = 1 := by
  have h1 := (c9_contador_carpetas configBase estadoLleno ["x", "Organizados"]
    ["Imágenes", "2024-03"] archivoFoto none none).1
  have h2 := (c9_contador_carpetas configBase estadoBase [] [] archivoFoto
    (some ["x", "Organizados"]) none).2 (by decide) (by decide)
  refine ⟨by decide, ?_, ?_⟩
  · rw [h1]
    decide
  · rw [h2]
    decide

/-- C10: a temporary extension (lower-cased) makes `debe_ignorar` return
`true` and the file be skipped with the `"ignorado"` outcome for every
configuration — unlike the hidden-name and system-name checks, the
temporary-extension check sits behind no flag. -/
theorem c10_temporales_incondicional (config : Configuracion) (p : Ruta) (st : Estado)
    (a : Archivo) (dest : Option Ruta) (io : Option PyErr) :
    (pyLower (sufijoDe p) ∈ extensiones_temp → debe_ignorar config p = true) ∧
    (pyLower (sufijoDe a.path) ∈ extensiones_temp →
      procesar_archivo config st a dest io =
        ({ st with estadisticas := { st.estadisticas with
            archivos_omitidos := st.estadisticas.archivos_omitidos + 1 } },
         false, "ignorado")) := by
  have base : ∀ q : Ruta, pyLower (sufijoDe q) ∈ extensiones_temp →
      debe_ignorar config q = true := by
    intro q hq
    simp [debe_ignorar, hq]
  exact ⟨base p, fun hq => procesar_ignorado config st a dest io (base a.path hq)⟩

theorem c10_testigo :
    debe_ignorar configMinimo ["x", "descarga.CRDOWNLOAD"] = true ∧
    (procesar_archivo configMinimo estadoBase archivoTemp (some ["x", "Organizados"])
        none).2 = (false, "ignorado") ∧
    debe_ignorar configMinimo ["x", ".DS_Store"] = false := by
  have h := c10_temporales_incondicional configMinimo ["x", "descarga.CRDOWNLOAD"]
    estadoBase archivoTemp (some ["x", "Organizados"]) none
  refine ⟨h.1 (by decide), ?_, by decide⟩
  rw [h.2 (by decide)]
